import Mathlib

/-!
Shallow embedding of the `draco_decoder` Rust crate (src/utils.rs, src/ffi.rs,
src/wasm.rs) and proofs about its buffer-layout engine and decode orchestration.

Machine integers are modelled as `Nat` carrying the machine value:
`u32` arithmetic wraps modulo `2^32` (release-mode Rust semantics) and an
`as u32` cast truncates modulo `2^32`; `usize` arithmetic wraps modulo `2^64`.
-/

def U32MOD : Nat := 2 ^ 32

def USIZEMOD : Nat := 2 ^ 64

/-- `AttributeDataType` from src/utils.rs: the closed enumeration of scalar
element types allowed in an attribute. -/
inductive AttributeDataType where
  | Int8
  | UInt8
  | Int16
  | UInt16
  | Int32
  | UInt32
  | Float32
deriving DecidableEq, Repr

/-- `AttributeDataType::size_in_bytes` from src/utils.rs. -/
def AttributeDataType.size_in_bytes : AttributeDataType → Nat
  | .Int8 | .UInt8 => 1
  | .Int16 | .UInt16 => 2
  | .Int32 | .UInt32 | .Float32 => 4

/-- `MeshAttribute` from src/utils.rs (the field `lenght` is spelled as in the
source). All numeric fields are `u32` values. -/
structure MeshAttribute where
  dim : Nat
  data_type : AttributeDataType
  offset : Nat
  lenght : Nat
deriving DecidableEq, Repr

/-- `DracoDecodeConfig` from src/utils.rs. `buffer_size` is a `usize` value;
the other numeric fields are `u32` values. -/
structure DracoDecodeConfig where
  vertex_count : Nat
  index_count : Nat
  index_length : Nat
  buffer_size : Nat
  attributes : List MeshAttribute
deriving DecidableEq, Repr

/-- `DracoDecodeConfig::new` from src/utils.rs: `index_length` is
`index_count * 2` when `index_count <= u16::MAX`, else `index_count * 4`,
computed in `usize` and cast back `as u32` (truncating); `buffer_size` starts
at `index_length`. -/
def DracoDecodeConfig.new (vertex_count index_count : Nat) : DracoDecodeConfig :=
  let index_length :=
    (if index_count ≤ 65535 then index_count * 2 else index_count * 4) % U32MOD
  { vertex_count := vertex_count
    index_count := index_count
    index_length := index_length
    buffer_size := index_length
    attributes := [] }

/-- `DracoDecodeConfig::with_buffer_size` from src/utils.rs: like `new` but the
`buffer_size` is supplied by the caller. -/
def DracoDecodeConfig.with_buffer_size (vertex_count index_count buffer_size : Nat) :
    DracoDecodeConfig :=
  let index_length :=
    (if index_count ≤ 65535 then index_count * 2 else index_count * 4) % U32MOD
  { vertex_count := vertex_count
    index_count := index_count
    index_length := index_length
    buffer_size := buffer_size
    attributes := [] }

/-- `DracoDecodeConfig::add_attribute` from src/utils.rs: `offset` is the
current `buffer_size` cast `as u32`; `length = dim * vertex_count *
size_in_bytes(data_type)` in `u32` arithmetic; the attribute is pushed and
`buffer_size` grows by `length` in `usize` arithmetic. -/
def DracoDecodeConfig.add_attribute (c : DracoDecodeConfig) (dim : Nat)
    (data_type : AttributeDataType) : DracoDecodeConfig :=
  let offset := c.buffer_size % U32MOD
  let length := dim * c.vertex_count * data_type.size_in_bytes % U32MOD
  { c with
    attributes := c.attributes ++ [⟨dim, data_type, offset, length⟩]
    buffer_size := (c.buffer_size + length) % USIZEMOD }

/-- `DracoDecodeConfig::add_attribute_with_offset` from src/utils.rs: pushes
the attribute verbatim; no other field is touched. -/
def DracoDecodeConfig.add_attribute_with_offset (c : DracoDecodeConfig) (dim : Nat)
    (data_type : AttributeDataType) (offset length : Nat) : DracoDecodeConfig :=
  { c with attributes := c.attributes ++ [⟨dim, data_type, offset, length⟩] }

/-- `DracoDecodeConfig::set_buffer_size` from src/utils.rs. -/
def DracoDecodeConfig.set_buffer_size (c : DracoDecodeConfig) (size : Nat) :
    DracoDecodeConfig :=
  { c with buffer_size := size }

/-- `DracoDecodeConfig::get_attribute` from src/utils.rs: `Vec::get`, i.e.
`Some` of the element when the index is in bounds, `None` otherwise. -/
def DracoDecodeConfig.get_attribute (c : DracoDecodeConfig) (index : Nat) :
    Option MeshAttribute :=
  c.attributes.get? index

/-- `MeshDecodeResult` from src/utils.rs: the decoded byte buffer plus its
config. Bytes are `u8` values. -/
structure MeshDecodeResult where
  data : List Nat
  config : DracoDecodeConfig
deriving DecidableEq, Repr

/-- Sanity check of the embedding against the crate's own `test_config` test
vector from src/lib.rs. -/
theorem test_config_vector :
    let c := ((DracoDecodeConfig.new 16744 54663).add_attribute 3 .Float32).add_attribute
      2 .Float32
    c.index_length = 109326 ∧
      c.get_attribute 0 = some ⟨3, .Float32, 109326, 200928⟩ ∧
      c.get_attribute 1 = some ⟨2, .Float32, 310254, 133952⟩ := by
  decide

/-! ## Native orchestrator (src/ffi.rs) -/

/-- The `MeshAttribute` struct of the `cxx::bridge` module in src/ffi.rs:
attribute metadata as reported by the C++ engine, with a raw `u32` type code. -/
structure CppMeshAttribute where
  dim : Nat
  data_type : Nat
  offset : Nat
  length : Nat
  unique_id : Nat
deriving DecidableEq, Repr

/-- The `MeshConfig` struct of the `cxx::bridge` module in src/ffi.rs. -/
structure CppMeshConfig where
  vertex_count : Nat
  index_count : Nat
  index_length : Nat
  buffer_size : Nat
  attributes : List CppMeshAttribute
deriving DecidableEq, Repr

/-- The data-type code match inside `convert_config` in src/ffi.rs
(codes 0..6, wildcard arm falls back to `UInt8`). -/
def ffiDataTypeOfCode (code : Nat) : AttributeDataType :=
  if code = 0 then .Int8
  else if code = 1 then .UInt8
  else if code = 2 then .Int16
  else if code = 3 then .UInt16
  else if code = 4 then .Int32
  else if code = 5 then .UInt32
  else if code = 6 then .Float32
  else .UInt8

/-- `convert_config` from src/ffi.rs: start from `with_buffer_size` on the
engine-reported counts and buffer size, then append every reported attribute
verbatim via `add_attribute_with_offset`. -/
def convert_config (cpp_config : CppMeshConfig) : DracoDecodeConfig :=
  cpp_config.attributes.foldl
    (fun config attr =>
      config.add_attribute_with_offset attr.dim (ffiDataTypeOfCode attr.data_type)
        attr.offset attr.length)
    (DracoDecodeConfig.with_buffer_size cpp_config.vertex_count cpp_config.index_count
      cpp_config.buffer_size)

/-- One interaction of `decode_mesh_with_config` (src/ffi.rs) with the external
C++ engine, abstracted as data: whether `create_mesh` returned null, whether
`compute_mesh_config` succeeded and what it wrote, the `bytes_written` result
of `decode_mesh_to_buffer`, and the byte the engine left at each position of
the preallocated output buffer. -/
structure EngineResponse where
  mesh_is_null : Bool
  compute_ok : Bool
  config : CppMeshConfig
  bytes_written : Nat
  fill : Nat → Nat

/-- Outcome of running `decode_mesh_with_config`: either the process panics
with the given message, or the function returns its `Option` value. -/
inductive DecodeOutcome where
  | panicked (msg : String)
  | returned (r : Option MeshDecodeResult)
deriving DecidableEq, Repr

/-- `decode_mesh_with_config` from src/ffi.rs: panic on a null mesh handle, a
failed config computation, or zero bytes written; otherwise convert the config,
truncate the `buffer_size`-byte buffer to `bytes_written`, and return `Some`. -/
def decode_mesh_with_config (resp : EngineResponse) : DecodeOutcome :=
  if resp.mesh_is_null then .panicked ("Failed to create mesh from data")
  else if ¬ resp.compute_ok then .panicked ("Failed to compute mesh config")
  else
    let buffer_size := resp.config.buffer_size
    let config := convert_config resp.config
    let buffer := (List.range buffer_size).map resp.fill
    let written := resp.bytes_written
    if written = 0 then .panicked ("Failed to decode mesh to buffer")
    else .returned (some { data := buffer.take written, config := config })

/-! ## Worker orchestrator (src/wasm.rs) -/

/-- One attribute of the structured worker response in src/wasm.rs: `dim` read
`as u32` and the raw type code read `as i32` (so possibly negative). -/
structure WorkerAttr where
  dim : Nat
  data_type : Int
deriving DecidableEq, Repr

/-- The structured response `{ decoded, config }` parsed by
`decode_draco_mesh_from_embedded_js_with_config` in src/wasm.rs. -/
structure WorkerResponse where
  decoded : List Nat
  vertex_count : Nat
  index_count : Nat
  attributes : List WorkerAttr
deriving DecidableEq, Repr

/-- The data-type code match inside
`decode_draco_mesh_from_embedded_js_with_config` in src/wasm.rs
(codes 0..6, wildcard arm falls back to `Float32`). -/
def wasmDataTypeOfCode (code : Int) : AttributeDataType :=
  if code = 0 then .Int8
  else if code = 1 then .UInt8
  else if code = 2 then .Int16
  else if code = 3 then .UInt16
  else if code = 4 then .Int32
  else if code = 5 then .UInt32
  else if code = 6 then .Float32
  else .Float32

/-- `decode_draco_mesh_from_embedded_js_with_config` from src/wasm.rs, with the
JS round trip abstracted as its result: any rejection or throw surfaces as
`Except.error`; on success the config is rebuilt with `DracoDecodeConfig::new`
plus one auto-offset `add_attribute` per reported attribute, in order. -/
def decode_draco_mesh_from_embedded_js_with_config
    (roundTrip : Except String WorkerResponse) :
    Except String (List Nat × DracoDecodeConfig) :=
  match roundTrip with
  | .error e => .error e
  | .ok resp =>
    let config := resp.attributes.foldl
      (fun config attr => config.add_attribute attr.dim (wasmDataTypeOfCode attr.data_type))
      (DracoDecodeConfig.new resp.vertex_count resp.index_count)
    .ok (resp.decoded, config)

/-- `decode_mesh_wasm_worker_with_config` from src/wasm.rs: an `Ok` round trip
becomes `Some MeshDecodeResult`; an `Err` is caught, logged via
`console::error_1` (modelled as the second component, the list of emitted
diagnostics), and becomes `None`. -/
def decode_mesh_wasm_worker_with_config (roundTrip : Except String WorkerResponse) :
    Option MeshDecodeResult × List String :=
  match decode_draco_mesh_from_embedded_js_with_config roundTrip with
  | .ok (decoded, config) => (some { data := decoded, config := config }, [])
  | .error err => (none, [err])

/-! ## The engine-reported layout (modelled from the spec)

The C++ side of `compute_mesh_config` belongs to this repository (it is behind
`include!("draco_decoder/include/decoder_api.h")` in src/ffi.rs) but is not
under src/, so its report is modelled from the spec. -/

/-- The numeric wire code of each data type, per the spec's table
0=Int8, 1=UInt8, 2=Int16, 3=UInt16, 4=Int32, 5=UInt32, 6=Float32. -/
def typeCode : AttributeDataType → Nat
  | .Int8 => 0
  | .UInt8 => 1
  | .Int16 => 2
  | .UInt16 => 3
  | .Int32 => 4
  | .UInt32 => 5
  | .Float32 => 6

/-- Modelled from the spec: the attribute list the external engine's
`compute_mesh_config` reports for a logical mesh, laid out contiguously after
the accumulated size `b` — each attribute gets `offset = current buffer size`
and `length = dim * vertex_count * size_in_bytes(data_type)`, stored in the
`u32`/`usize` fields of the FFI structs (hence the truncations). -/
def engineAttrs (vc : Nat) (b : Nat) : List (Nat × AttributeDataType) → List CppMeshAttribute
  | [] => []
  | a :: rest =>
    let length := a.1 * vc * a.2.size_in_bytes % U32MOD
    ⟨a.1, typeCode a.2, b % U32MOD, length, 0⟩ ::
      engineAttrs vc ((b + length) % USIZEMOD) rest

/-- Modelled from the spec: the total buffer size the engine reports, i.e. the
accumulated size after all attributes of `engineAttrs` are placed. -/
def engineBufferSize (vc : Nat) (b : Nat) : List (Nat × AttributeDataType) → Nat
  | [] => b
  | a :: rest =>
    engineBufferSize vc ((b + a.1 * vc * a.2.size_in_bytes % U32MOD) % USIZEMOD) rest

/-- Modelled from the spec: the full `MeshConfig` the external engine's
`compute_mesh_config` (repository C++ not under src/) reports for a logical
mesh: the index segment first (`index_count * 2` bytes when
`index_count ≤ 65535`, else `index_count * 4`), then the attributes in order,
contiguously. -/
def engineReportedConfig (vc ic : Nat) (attrs : List (Nat × AttributeDataType)) :
    CppMeshConfig :=
  let index_length :=
    (if ic ≤ 65535 then ic * 2 else ic * 4) % U32MOD
  { vertex_count := vc
    index_count := ic
    index_length := index_length
    buffer_size := engineBufferSize vc index_length attrs
    attributes := engineAttrs vc index_length attrs }

/-! ## Helper notions for the layout proofs -/

/-- The mathematically exact byte length of one attribute:
`dim * vertex_count * size_in_bytes(data_type)`, with no truncation. -/
def attrExactLen (vc : Nat) (a : Nat × AttributeDataType) : Nat :=
  a.1 * vc * a.2.size_in_bytes

/-- The exact total byte length of a list of attributes. -/
def exactTotal (vc : Nat) (attrs : List (Nat × AttributeDataType)) : Nat :=
  (attrs.map (attrExactLen vc)).sum

/-- The attribute records auto-offset insertion produces when nothing
overflows: offsets accumulate exactly from `b`. -/
def buildExact (vc b : Nat) : List (Nat × AttributeDataType) → List MeshAttribute
  | [] => []
  | a :: rest =>
    ⟨a.1, a.2, b, attrExactLen vc a⟩ :: buildExact vc (b + attrExactLen vc a) rest

/-- Folding `add_attribute` over a list of `(dim, data_type)` pairs: a run of
auto-offset insertions in order. -/
def addAll (c : DracoDecodeConfig) (attrs : List (Nat × AttributeDataType)) :
    DracoDecodeConfig :=
  attrs.foldl (fun config a => config.add_attribute a.1 a.2) c

theorem addAll_cons (c : DracoDecodeConfig) (a : Nat × AttributeDataType)
    (rest : List (Nat × AttributeDataType)) :
    addAll c (a :: rest) = addAll (c.add_attribute a.1 a.2) rest := rfl

theorem u32mod_lt_usizemod : U32MOD < USIZEMOD := by norm_num [U32MOD, USIZEMOD]

/-- As long as the exact total stays below `2^32`, a run of auto-offset
insertions behaves exactly: every truncation is the identity, the appended
attributes are `buildExact`, and `buffer_size` grows by the exact total. -/
theorem addAll_no_overflow (attrs : List (Nat × AttributeDataType)) :
    ∀ c : DracoDecodeConfig,
      c.buffer_size + exactTotal c.vertex_count attrs < U32MOD →
      addAll c attrs =
        { c with
          attributes := c.attributes ++ buildExact c.vertex_count c.buffer_size attrs
          buffer_size := c.buffer_size + exactTotal c.vertex_count attrs } := by
  induction attrs with
  | nil =>
    intro c _
    cases c
    simp [addAll, exactTotal, buildExact]
  | cons a rest ih =>
    intro c h
    obtain ⟨vc, ic, il, bs, ats⟩ := c
    have htot : exactTotal vc (a :: rest)
        = attrExactLen vc a + exactTotal vc rest := by
      simp [exactTotal]
    rw [htot] at h
    simp only [DracoDecodeConfig.buffer_size, DracoDecodeConfig.vertex_count] at h ⊢
    have hbs : bs < U32MOD := by omega
    have hal : attrExactLen vc a < U32MOD := by omega
    have h64 : bs + attrExactLen vc a < USIZEMOD := by
      have := u32mod_lt_usizemod; omega
    have hal' : a.1 * vc * a.2.size_in_bytes < U32MOD := hal
    have h64' : bs + a.1 * vc * a.2.size_in_bytes < USIZEMOD := h64
    have hstep : (DracoDecodeConfig.mk vc ic il bs ats).add_attribute a.1 a.2 =
        DracoDecodeConfig.mk vc ic il (bs + attrExactLen vc a)
          (ats ++ [⟨a.1, a.2, bs, attrExactLen vc a⟩]) := by
      simp [DracoDecodeConfig.add_attribute, attrExactLen,
        Nat.mod_eq_of_lt hbs, Nat.mod_eq_of_lt hal', Nat.mod_eq_of_lt h64']
    rw [addAll_cons, hstep, ih]
    · simp only [DracoDecodeConfig.mk.injEq, buildExact, htot, List.append_assoc,
        List.singleton_append, true_and]
      exact ⟨by omega, by simp⟩
    · simpa using (by omega :
        bs + attrExactLen vc a + exactTotal vc rest < U32MOD)

theorem buildExact_lenght (vc : Nat) :
    ∀ (attrs : List (Nat × AttributeDataType)) (b i : Nat) (x : MeshAttribute),
      (buildExact vc b attrs).get? i = some x →
      x.lenght = x.dim * vc * x.data_type.size_in_bytes := by
  intro attrs
  induction attrs with
  | nil => intro b i x h; simp [buildExact] at h
  | cons a rest ih =>
    intro b i x h
    cases i with
    | zero =>
      simp [buildExact] at h
      rw [← h]
      simp [attrExactLen]
    | succ j => exact ih (b + attrExactLen vc a) j x (by simpa [buildExact] using h)

theorem buildExact_head (vc b : Nat) (attrs : List (Nat × AttributeDataType))
    (x : MeshAttribute) (h : (buildExact vc b attrs).get? 0 = some x) : x.offset = b := by
  cases attrs with
  | nil => simp [buildExact] at h
  | cons a rest =>
    simp [buildExact] at h
    rw [← h]

theorem buildExact_chain (vc : Nat) :
    ∀ (attrs : List (Nat × AttributeDataType)) (b i : Nat) (x y : MeshAttribute),
      (buildExact vc b attrs).get? i = some x →
      (buildExact vc b attrs).get? (i + 1) = some y →
      x.offset + x.lenght = y.offset := by
  intro attrs
  induction attrs with
  | nil => intro b i x y hx _; simp [buildExact] at hx
  | cons a rest ih =>
    intro b i x y hx hy
    cases i with
    | zero =>
      cases rest with
      | nil => simp [buildExact] at hy
      | cons a2 r2 =>
        simp [buildExact] at hx hy
        rw [← hx, ← hy]
    | succ j =>
      exact ih (b + attrExactLen vc a) j x y
        (by simpa [buildExact] using hx) (by simpa [buildExact] using hy)

theorem buildExact_sum_aux (vc : Nat) :
    ∀ (attrs : List (Nat × AttributeDataType)) (b : Nat),
      ((buildExact vc b attrs).map MeshAttribute.lenght).sum = exactTotal vc attrs := by
  intro attrs
  induction attrs with
  | nil => intro b; simp [buildExact, exactTotal]
  | cons a rest ih =>
    intro b
    simp [buildExact, exactTotal, ih (b + attrExactLen vc a)]

/-! ## C1 -/

/-- Claim C1 is false as stated: with `vertex_count = 2^31`, one
`add_attribute(2, UInt8)` call computes its length in wrapping `u32`
arithmetic, so the stored length is `0` and `buffer_size` stays at
`index_length`, while the claim demands
`buffer_size = index_length + dim * vertex_count * size_in_bytes = 2^32`. -/
theorem c1_counterexample :
    ((addAll (DracoDecodeConfig.new 2147483648 0)
        [(2, AttributeDataType.UInt8)]).get_attribute 0).map MeshAttribute.lenght =
      some 0 ∧
    2 * 2147483648 * AttributeDataType.UInt8.size_in_bytes ≠ 0 ∧
    ¬ ((addAll (DracoDecodeConfig.new 2147483648 0)
          [(2, AttributeDataType.UInt8)]).buffer_size =
        (addAll (DracoDecodeConfig.new 2147483648 0)
            [(2, AttributeDataType.UInt8)]).index_length +
          2 * 2147483648 * AttributeDataType.UInt8.size_in_bytes) := by
  decide

/-- Claim C1 (amended): for a config built by `DracoDecodeConfig::new` followed
by any run of `add_attribute` calls, provided the exact index segment plus the
exact attribute lengths stay below `2^32` (no `u32` overflow), the attributes
tile `[index_length, buffer_size)` contiguously and without overlap:
the first attribute starts at `index_length`, each attribute ends where the
next begins, `buffer_size = index_length + Σ lengths`, and every length equals
`dim * vertex_count * size_in_bytes(data_type)`. -/
theorem c1_auto_offset_tiling (vc ic : Nat) (attrs : List (Nat × AttributeDataType))
    (cfg : DracoDecodeConfig)
    (hcfg : cfg = addAll (DracoDecodeConfig.new vc ic) attrs)
    (h : (if ic ≤ 65535 then ic * 2 else ic * 4) + exactTotal vc attrs < U32MOD) :
    (∀ x, cfg.attributes.get? 0 = some x → x.offset = cfg.index_length) ∧
    (∀ i x y, cfg.attributes.get? i = some x →
      cfg.attributes.get? (i + 1) = some y → x.offset + x.lenght = y.offset) ∧
    cfg.buffer_size = cfg.index_length + (cfg.attributes.map MeshAttribute.lenght).sum ∧
    (∀ i x, cfg.attributes.get? i = some x →
      x.lenght = x.dim * vc * x.data_type.size_in_bytes) := by
  subst hcfg
  have hil_lt : (if ic ≤ 65535 then ic * 2 else ic * 4) < U32MOD := by omega
  have hnew : DracoDecodeConfig.new vc ic =
      DracoDecodeConfig.mk vc ic (if ic ≤ 65535 then ic * 2 else ic * 4)
        (if ic ≤ 65535 then ic * 2 else ic * 4) [] := by
    simp [DracoDecodeConfig.new, Nat.mod_eq_of_lt hil_lt]
  have hfold := addAll_no_overflow attrs (DracoDecodeConfig.new vc ic)
    (by rw [hnew]; exact h)
  rw [hnew] at hfold
  simp only [List.nil_append] at hfold
  rw [hnew, hfold]
  dsimp only
  refine ⟨?_, ?_, ?_, ?_⟩
  · intro x hx
    exact buildExact_head vc _ attrs x hx
  · intro i x y hx hy
    exact buildExact_chain vc attrs _ i x y hx hy
  · rw [buildExact_sum_aux]
  · intro i x hx
    exact buildExact_lenght vc attrs _ i x hx

/-- Witness for `c1_auto_offset_tiling` at `vertex_count = 2`,
`index_count = 3`, attributes `[(3, Float32), (2, UInt8)]`. -/
theorem c1_auto_offset_tiling_witness :
    (addAll (DracoDecodeConfig.new 2 3)
        [(3, AttributeDataType.Float32), (2, AttributeDataType.UInt8)]).buffer_size =
      (addAll (DracoDecodeConfig.new 2 3)
          [(3, AttributeDataType.Float32), (2, AttributeDataType.UInt8)]).index_length +
        ((addAll (DracoDecodeConfig.new 2 3)
            [(3, AttributeDataType.Float32),
              (2, AttributeDataType.UInt8)]).attributes.map MeshAttribute.lenght).sum :=
  (c1_auto_offset_tiling 2 3 [(3, .Float32), (2, .UInt8)] _ rfl (by decide)).2.2.1

/-! ## C3 -/

/-- Claim C3 is false as stated: at `index_count = 2^30 > 65535` the source
computes `index_count * 4` in `usize` and casts it `as u32`, which truncates
`2^32` to `0`, so `index_length` is `0`, not `index_count * 4`. -/
theorem c3_counterexample :
    (DracoDecodeConfig.new 0 1073741824).index_length = 0 ∧
    ¬ (1073741824 : Nat) ≤ 65535 ∧
    (1073741824 : Nat) * 4 ≠ 0 ∧
    (DracoDecodeConfig.with_buffer_size 0 1073741824 0).index_length = 0 := by
  decide

/-- Claim C3 (amended): both `DracoDecodeConfig::new` and
`DracoDecodeConfig::with_buffer_size` set `index_length` to `index_count * 2`
when `index_count ≤ 65535` and to `(index_count * 4) mod 2^32` otherwise (the
`as u32` cast truncates), and `new` additionally initializes `buffer_size` to
exactly `index_length`. -/
theorem c3_index_length (vc ic bs : Nat) :
    (DracoDecodeConfig.new vc ic).index_length =
      (if ic ≤ 65535 then ic * 2 else ic * 4 % U32MOD) ∧
    (DracoDecodeConfig.with_buffer_size vc ic bs).index_length =
      (if ic ≤ 65535 then ic * 2 else ic * 4 % U32MOD) ∧
    (DracoDecodeConfig.new vc ic).buffer_size =
      (DracoDecodeConfig.new vc ic).index_length := by
  refine ⟨?_, ?_, rfl⟩ <;>
  · by_cases hic : ic ≤ 65535
    · have h2 : ic * 2 < U32MOD := by
        have : U32MOD = 4294967296 := by norm_num [U32MOD]
        omega
      simp [DracoDecodeConfig.new, DracoDecodeConfig.with_buffer_size, hic,
        Nat.mod_eq_of_lt h2]
    · simp [DracoDecodeConfig.new, DracoDecodeConfig.with_buffer_size, hic]

/-! ## C2 -/

theorem ffi_typeCode_roundtrip (dt : AttributeDataType) :
    ffiDataTypeOfCode (typeCode dt) = dt := by
  cases dt <;> rfl

theorem wasm_typeCode_roundtrip (dt : AttributeDataType) :
    wasmDataTypeOfCode (typeCode dt) = dt := by
  cases dt <;> rfl

/-- How `convert_config` turns one engine-reported attribute into a
`MeshAttribute`: the code is mapped through the ffi fallback table, the other
fields are copied verbatim. -/
def convAttr (a : CppMeshAttribute) : MeshAttribute :=
  ⟨a.dim, ffiDataTypeOfCode a.data_type, a.offset, a.length⟩

theorem foldl_add_with_offset (l : List CppMeshAttribute) :
    ∀ d : DracoDecodeConfig,
      l.foldl (fun config attr =>
          config.add_attribute_with_offset attr.dim (ffiDataTypeOfCode attr.data_type)
            attr.offset attr.length) d =
        { d with attributes := d.attributes ++ l.map convAttr } := by
  induction l with
  | nil => intro d; cases d; simp
  | cons a rest ih =>
    intro d
    rw [List.foldl_cons, ih]
    cases d
    simp [DracoDecodeConfig.add_attribute_with_offset, convAttr, List.append_assoc]

theorem convert_config_eq (c : CppMeshConfig) :
    convert_config c =
      DracoDecodeConfig.mk c.vertex_count c.index_count
        ((if c.index_count ≤ 65535 then c.index_count * 2 else c.index_count * 4) % U32MOD)
        c.buffer_size (c.attributes.map convAttr) := by
  rw [convert_config, foldl_add_with_offset]
  simp [DracoDecodeConfig.with_buffer_size]

theorem wasm_fold_matches_engine (attrs : List (Nat × AttributeDataType)) :
    ∀ d : DracoDecodeConfig,
      (attrs.map (fun a => WorkerAttr.mk a.1 (typeCode a.2))).foldl
          (fun config attr =>
            config.add_attribute attr.dim (wasmDataTypeOfCode attr.data_type)) d =
        { d with
          attributes := d.attributes ++
            (engineAttrs d.vertex_count d.buffer_size attrs).map convAttr
          buffer_size := engineBufferSize d.vertex_count d.buffer_size attrs } := by
  induction attrs with
  | nil => intro d; cases d; simp [engineAttrs, engineBufferSize]
  | cons a rest ih =>
    intro d
    obtain ⟨vc, ic, il, bs, ats⟩ := d
    simp only [List.map_cons, List.foldl_cons]
    rw [ih]
    simp [DracoDecodeConfig.add_attribute, engineAttrs, engineBufferSize, convAttr,
      wasm_typeCode_roundtrip, ffi_typeCode_roundtrip, List.append_assoc]

/-- Claim C2: for any logical mesh (vertex count, index count, ordered
`(dim, data_type)` list), the worker path — `DracoDecodeConfig::new` plus one
auto-offset `add_attribute` per attribute, as in
`decode_draco_mesh_from_embedded_js_with_config` — produces a config
structurally equal to the one the native path builds with
`convert_config` (`with_buffer_size` plus `add_attribute_with_offset`) from
the engine-reported offsets, lengths, and buffer size. -/
theorem c2_cross_mode_equal (vc ic : Nat) (attrs : List (Nat × AttributeDataType))
    (decoded : List Nat) :
    decode_draco_mesh_from_embedded_js_with_config
        (.ok ⟨decoded, vc, ic, attrs.map (fun a => WorkerAttr.mk a.1 (typeCode a.2))⟩) =
      .ok (decoded, convert_config (engineReportedConfig vc ic attrs)) := by
  simp only [decode_draco_mesh_from_embedded_js_with_config]
  rw [convert_config_eq]
  simp only [engineReportedConfig]
  rw [wasm_fold_matches_engine]
  simp [DracoDecodeConfig.new]

/-! ## C4 -/

/-- A concrete engine interaction: valid mesh handle, a config reporting
`buffer_size = 4` with no attributes, but only 2 bytes actually written. -/
def shortWriteResp : EngineResponse :=
  { mesh_is_null := false
    compute_ok := true
    config := ⟨0, 0, 0, 4, []⟩
    bytes_written := 2
    fill := fun _ => 0 }

/-- The value a `DecodeOutcome` returned, if it did not panic. -/
def resultOf : DecodeOutcome → Option MeshDecodeResult
  | .panicked _ => none
  | .returned r => r

/-- Claim C4 is false as stated: when the engine reports `bytes_written = 2`
against a preallocated `buffer_size = 4`, the returned `data` has length 2
while `config.buffer_size` stays 4 — the config is never updated after the
truncation. -/
theorem c4_counterexample :
    (resultOf (decode_mesh_with_config shortWriteResp)).map
        (fun r => (r.data.length, r.config.buffer_size)) = some (2, 4) ∧
      (2 : Nat) ≠ 4 := by
  decide

/-- Claim C4 (amended): for every `MeshDecodeResult` returned by the native
decode path, `data.len() == min(bytes_written, config.buffer_size)`; in
particular `data.len() == config.buffer_size` holds exactly when the engine
wrote the whole preallocated buffer, and the truncation to a smaller
`bytes_written` leaves `data` strictly shorter than `config.buffer_size`. -/
theorem c4_truncated_length (resp : EngineResponse) (r : MeshDecodeResult)
    (h : decode_mesh_with_config resp = .returned (some r)) :
    r.data.length = min resp.bytes_written r.config.buffer_size := by
  unfold decode_mesh_with_config at h
  by_cases h1 : resp.mesh_is_null
  · simp [h1] at h
  · by_cases h2 : resp.compute_ok
    · by_cases h3 : resp.bytes_written = 0
      · simp [h1, h2, h3] at h
      · simp only [h1, h2, h3, if_false, if_true, not_true, Bool.false_eq_true,
          ite_false, ite_true, not_false_iff] at h
        injection h with h
        injection h with h
        rw [← h]
        simp [convert_config_eq]
    · simp [h1, h2] at h

/-- Witness for `c4_truncated_length` at the short-write interaction. -/
theorem c4_truncated_length_witness :
    (MeshDecodeResult.mk [0, 0] (convert_config ⟨0, 0, 0, 4, []⟩)).data.length =
      min shortWriteResp.bytes_written
        (MeshDecodeResult.mk [0, 0]
          (convert_config ⟨0, 0, 0, 4, []⟩)).config.buffer_size :=
  c4_truncated_length shortWriteResp _ (by decide)

/-! ## C5 -/

/-- Claim C5: both orchestration paths map attribute-type codes totally: codes
0..6 map to the same seven types on both paths (0=Int8, 1=UInt8, 2=Int16,
3=UInt16, 4=Int32, 5=UInt32, 6=Float32), while any out-of-range code falls
back to `UInt8` on the native path but to `Float32` on the worker path (whose
code is an `i32`, so negative codes also hit the fallback). -/
theorem c5_fallback_mapping :
    (∀ code : Nat, 6 < code → ffiDataTypeOfCode code = .UInt8) ∧
    (∀ code : Int, code < 0 ∨ 6 < code → wasmDataTypeOfCode code = .Float32) ∧
    (∀ code : Nat, code ≤ 6 → ffiDataTypeOfCode code = wasmDataTypeOfCode code) ∧
    ffiDataTypeOfCode 0 = .Int8 ∧ ffiDataTypeOfCode 1 = .UInt8 ∧
    ffiDataTypeOfCode 2 = .Int16 ∧ ffiDataTypeOfCode 3 = .UInt16 ∧
    ffiDataTypeOfCode 4 = .Int32 ∧ ffiDataTypeOfCode 5 = .UInt32 ∧
    ffiDataTypeOfCode 6 = .Float32 := by
  refine ⟨?_, ?_, ?_, rfl, rfl, rfl, rfl, rfl, rfl, rfl⟩
  · intro code h
    have h0 : code ≠ 0 := by omega
    have h1 : code ≠ 1 := by omega
    have h2 : code ≠ 2 := by omega
    have h3 : code ≠ 3 := by omega
    have h4 : code ≠ 4 := by omega
    have h5 : code ≠ 5 := by omega
    have h6 : code ≠ 6 := by omega
    simp [ffiDataTypeOfCode, h0, h1, h2, h3, h4, h5, h6]
  · intro code h
    have h0 : code ≠ 0 := by omega
    have h1 : code ≠ 1 := by omega
    have h2 : code ≠ 2 := by omega
    have h3 : code ≠ 3 := by omega
    have h4 : code ≠ 4 := by omega
    have h5 : code ≠ 5 := by omega
    have h6 : code ≠ 6 := by omega
    simp [wasmDataTypeOfCode, h0, h1, h2, h3, h4, h5, h6]
  · intro code h
    interval_cases code <;> rfl

/-- Witness for `c5_fallback_mapping` at the out-of-range codes 99 (native)
and -3 (worker), and at the shared in-range code 6. -/
theorem c5_fallback_mapping_witness :
    ffiDataTypeOfCode 99 = .UInt8 ∧ wasmDataTypeOfCode (-3) = .Float32 ∧
      ffiDataTypeOfCode 6 = wasmDataTypeOfCode 6 :=
  ⟨c5_fallback_mapping.1 99 (by norm_num),
    c5_fallback_mapping.2.1 (-3) (Or.inl (by norm_num)),
    c5_fallback_mapping.2.2.1 6 (by norm_num)⟩

/-! ## C6 -/

/-- Engine interaction where `create_mesh` returns a null handle. -/
def nullMeshResp : EngineResponse :=
  { mesh_is_null := true
    compute_ok := true
    config := ⟨0, 0, 0, 0, []⟩
    bytes_written := 0
    fill := fun _ => 0 }

/-- Engine interaction where `compute_mesh_config` reports failure. -/
def configFailResp : EngineResponse :=
  { mesh_is_null := false
    compute_ok := false
    config := ⟨0, 0, 0, 0, []⟩
    bytes_written := 0
    fill := fun _ => 0 }

/-- Engine interaction where `decode_mesh_to_buffer` writes zero bytes. -/
def zeroWrittenResp : EngineResponse :=
  { mesh_is_null := false
    compute_ok := true
    config := ⟨0, 0, 0, 4, []⟩
    bytes_written := 0
    fill := fun _ => 0 }

/-- Claim C6 names required behavior the code does not have: on each of the
three engine-reported failures (null mesh handle, failed config computation,
zero bytes written) the native `decode_mesh_with_config` panics — aborting the
host process — instead of returning a recoverable error value such as the
`None` its own documentation promises. -/
theorem c6_engine_failures_panic :
    decode_mesh_with_config nullMeshResp =
        .panicked ("Failed to create mesh from data") ∧
    decode_mesh_with_config configFailResp =
        .panicked ("Failed to compute mesh config") ∧
    decode_mesh_with_config zeroWrittenResp =
        .panicked ("Failed to decode mesh to buffer") :=
  ⟨rfl, rfl, rfl⟩

/-! ## C7 -/

/-- Claim C7: every rejection of the worker round trip is caught by
`decode_mesh_wasm_worker_with_config` and becomes `(None, one logged
diagnostic)` rather than propagating; a `Some` result (with no diagnostic) is
produced exactly from a successful round trip, carrying its decoded bytes. -/
theorem c7_worker_failures_caught (rt : Except String WorkerResponse) :
    (∀ e, rt = .error e → decode_mesh_wasm_worker_with_config rt = (none, [e])) ∧
    (∀ r logs, decode_mesh_wasm_worker_with_config rt = (some r, logs) →
      logs = [] ∧ ∃ resp, rt = .ok resp ∧ r.data = resp.decoded) := by
  constructor
  · intro e he
    subst he
    rfl
  · intro r logs h
    cases rt with
    | error e =>
      simp [decode_mesh_wasm_worker_with_config,
        decode_draco_mesh_from_embedded_js_with_config] at h
    | ok resp =>
      simp only [decode_mesh_wasm_worker_with_config,
        decode_draco_mesh_from_embedded_js_with_config, Prod.mk.injEq] at h
      obtain ⟨h1, h2⟩ := h
      injection h1 with h1
      exact ⟨h2.symm, resp, rfl, by rw [← h1]⟩

/-- Witness for `c7_worker_failures_caught`: a rejected round trip collapses
to `None` plus its diagnostic. -/
theorem c7_worker_failures_caught_witness :
    decode_mesh_wasm_worker_with_config (.error ("boom")) = (none, ["boom"]) :=
  (c7_worker_failures_caught (.error ("boom"))).1 ("boom") rfl

/-! ## C8 -/

/-- Claim C8: `add_attribute_with_offset(dim, data_type, offset, length)`
appends at the end of the attribute sequence exactly one attribute carrying
those four field values verbatim, and leaves `vertex_count`, `index_count`,
`index_length`, and `buffer_size` unchanged. -/
theorem c8_add_with_offset_frame (c : DracoDecodeConfig) (dim : Nat)
    (dt : AttributeDataType) (offset length : Nat) :
    (c.add_attribute_with_offset dim dt offset length).attributes =
        c.attributes ++ [⟨dim, dt, offset, length⟩] ∧
    (c.add_attribute_with_offset dim dt offset length).vertex_count = c.vertex_count ∧
    (c.add_attribute_with_offset dim dt offset length).index_count = c.index_count ∧
    (c.add_attribute_with_offset dim dt offset length).index_length = c.index_length ∧
    (c.add_attribute_with_offset dim dt offset length).buffer_size = c.buffer_size :=
  ⟨rfl, rfl, rfl, rfl, rfl⟩

/-! ## C9 -/

/-- Claim C9: the native `decode_mesh_with_config` never reaches the `None`
branch of its `Option` return type: on engine failures it panics instead of
returning, so any returned value is `Some`. -/
theorem c9_never_returns_none (resp : EngineResponse) :
    ∀ r, decode_mesh_with_config resp = .returned r → r.isSome := by
  intro r h
  unfold decode_mesh_with_config at h
  by_cases h1 : resp.mesh_is_null
  · simp [h1] at h
  · by_cases h2 : resp.compute_ok
    · by_cases h3 : resp.bytes_written = 0
      · simp [h1, h2, h3] at h
      · simp only [h1, h2, h3, if_false, if_true, not_true, Bool.false_eq_true,
          ite_false, ite_true, not_false_iff] at h
        injection h with h
        rw [← h]
        rfl
    · simp [h1, h2] at h

/-- Witness for `c9_never_returns_none` at a successful engine interaction. -/
theorem c9_never_returns_none_witness :
    (some (MeshDecodeResult.mk [0, 0] (convert_config ⟨0, 0, 0, 4, []⟩)) :
      Option MeshDecodeResult).isSome :=
  c9_never_returns_none shortWriteResp _ (by decide)

/-! ## C10 -/

/-- Claim C10: `get_attribute(i)` is total: it returns `Some` of the `i`-th
attribute in insertion order when `i` is in bounds, and `None` otherwise. -/
theorem c10_get_attribute_total (c : DracoDecodeConfig) (i : Nat) :
    (∀ h : i < c.attributes.length,
      c.get_attribute i = some (c.attributes.get ⟨i, h⟩)) ∧
    (c.attributes.length ≤ i → c.get_attribute i = none) := by
  constructor
  · intro h
    simp [DracoDecodeConfig.get_attribute, List.get?_eq_get h]
  · intro h
    simp only [DracoDecodeConfig.get_attribute]
    exact List.get?_eq_none.mpr h

/-- A small config with one explicitly placed attribute. -/
def cfgW : DracoDecodeConfig :=
  (DracoDecodeConfig.new 1 1).add_attribute_with_offset 3 .Float32 2 12

/-- Witness for `c10_get_attribute_total`: in-bounds and out-of-bounds lookup
on a concrete config. -/
theorem c10_get_attribute_total_witness :
    cfgW.get_attribute 0 = some (cfgW.attributes.get ⟨0, by decide⟩) ∧
      cfgW.get_attribute 7 = none :=
  ⟨(c10_get_attribute_total cfgW 0).1 (by decide),
    (c10_get_attribute_total cfgW 7).2 (by decide)⟩
